import Mathlib

/-!
Verification of the go-bloodlab-net repository: the LIS1-A1 checksum and
send/receive framing (modelled from the spec, the protocol sources being
absent from the checkout), and the FTP/SFTP polling client (`ftpClient.go`),
embedded shallowly: external effects (dial, login, directory listing, file
reads, handler callbacks) are supplied by an environment record and the
embedded code produces the trace of observable events the Go code would
produce.
-/

namespace BloodlabNet

/-! ## Control-byte alphabet (spec §3) -/

def ENQ : Nat := 0x05
def ACK : Nat := 0x06
def STX : Nat := 0x02
def ETX : Nat := 0x03
def EOT : Nat := 0x04
def NAK : Nat := 0x15
def ETB : Nat := 0x17
def CR : Nat := 0x0D
def LF : Nat := 0x0A

/-- Byte values of a string (ASCII). -/
def strBytes (s : String) : List Nat := s.toList.map Char.toNat

/-! ## LIS1-A1 checksum -/

/-- Uppercase hexadecimal digit (as an ASCII code) of a value below 16. -/
def hexDigitU (n : Nat) : Nat := if n < 10 then 48 + n else 55 + n

/-- Modelled from the spec: `computeChecksum(frameNo, body, terminator)` of the
LIS1-A1 protocol layer (function absent from the checkout, specified in §4.4):
the sum of all bytes of the frame-number digits, the payload and the
terminator (`ETX` or `ETB`), taken modulo 256, emitted as two uppercase hex
ASCII digits. -/
def computeChecksum (frameNo body term : List Nat) : List Nat :=
  let s := (frameNo ++ body ++ term).sum % 256
  [hexDigitU (s / 16), hexDigitU (s % 16)]

/-- Independent decoder of a two-uppercase-hex-ASCII-digit pair, used to state
that the checksum indeed denotes the byte sum modulo 256. -/
def hexValU (c : Nat) : Nat := if c ≤ 57 then c - 48 else c - 55

def decodeHexPair : List Nat → Nat
  | [h, l] => 16 * hexValU h + hexValU l
  | _ => 0

/-- A byte is an uppercase hexadecimal ASCII digit. -/
def isUpperHexDigit (c : Nat) : Prop := (48 ≤ c ∧ c ≤ 57) ∨ (65 ≤ c ∧ c ≤ 70)

/-! ## LIS1-A1 framing: send and receive over a duplex pipe

Modelled from the spec (§4.5, §6): the protocol sources are absent from the
checkout.  `lis1a1Send` is the byte stream the sender writes to the pipe in a
run where the peer acknowledges every frame (`ENQ`, then the numbered frames,
then `EOT`); `lis1a1Receive` is the receiver's consumption of that stream,
assembling the delivered message (the `ACK` bytes the receiver writes back do
not affect the delivered data and are abstracted away).  Frames exceeding
`maxFramePayload` (default 240) are split, all but the last terminated by
`ETB`; the receiver coalesces `ETB` frames.  Frame numbers start at 1 and
wrap modulo 8; the delivered message has each record followed by the record
separator `CR`. -/

/-- `maxFramePayload` default (spec §6). -/
def maxFramePayload : Nat := 240

/-- Split a record into chunks of at most `maxFramePayload` bytes. -/
def chunksRec (r : List Nat) : List (List Nat) :=
  if r.length ≤ maxFramePayload then [r]
  else r.take maxFramePayload :: chunksRec (r.drop maxFramePayload)
termination_by r.length
decreasing_by simp only [List.length_drop, maxFramePayload] at *; omega

/-- ASCII digit of the frame number, wrapping modulo 8. -/
def frameDigit (n : Nat) : Nat := 48 + n % 8

/-- One wire frame: `STX`, frame-number digit, body, terminator, checksum,
`CR LF`. -/
def frameBytes (fno : Nat) (body : List Nat) (term : Nat) : List Nat :=
  STX :: frameDigit fno :: body ++ term ::
    computeChecksum [frameDigit fno] body [term] ++ [CR, LF]

/-- Wire encoding of the chunks of one record: all but the last frame use
`ETB`, the last uses `ETX`; the frame number advances by one per frame. -/
def encChunks (fno : Nat) : List (List Nat) → List Nat
  | [] => []
  | [c] => frameBytes fno c ETX
  | c :: c2 :: cs => frameBytes fno c ETB ++ encChunks (fno + 1) (c2 :: cs)

/-- Wire encoding of a list of records, threading the frame number. -/
def encRecords (fno : Nat) : List (List Nat) → List Nat
  | [] => []
  | r :: rs => encChunks fno (chunksRec r) ++ encRecords (fno + (chunksRec r).length) rs

/-- Modelled from the spec: the byte stream the LIS1-A1 sender writes for a
list of records in a fully acknowledged session (spec §4.5 sender path). -/
def lis1a1Send (records : List (List Nat)) : List Nat :=
  ENQ :: encRecords 1 records ++ [EOT]

/-- Scan a frame body up to its terminator (`ETX` or `ETB`). -/
def splitFrame : List Nat → Option (List Nat × Nat × List Nat)
  | [] => none
  | c :: rest =>
    if c = ETX ∨ c = ETB then some ([], c, rest)
    else
      match splitFrame rest with
      | some (b, t, r) => some (c :: b, t, r)
      | none => none

/-- Modelled from the spec: the LIS1-A1 receiver's frame loop (spec §4.5
receiver path).  `acc` is the delivered message so far, `part` the coalesced
payload of preceding `ETB` frames; each `ETX` frame flushes the record
followed by the `CR` separator; `EOT` delivers the message.  The fuel bounds
the number of frames and only needs to dominate the stream length. -/
def parseFrames : Nat → List Nat → List Nat → List Nat → Option (List Nat)
  | 0, _, _, _ => none
  | _, _, _, [] => none
  | fuel + 1, acc, part, c :: rest =>
    if c = EOT then some acc
    else if c = STX then
      match rest with
      | [] => none
      | fno :: rest2 =>
        match splitFrame rest2 with
        | some (body, term, c1 :: c2 :: c3 :: c4 :: rest3) =>
          if c3 = CR ∧ c4 = LF ∧ [c1, c2] = computeChecksum [fno] body [term] then
            if term = ETX then parseFrames fuel (acc ++ part ++ body ++ [CR]) [] rest3
            else parseFrames fuel acc (part ++ body) rest3
          else none
        | _ => none
    else none

/-- Modelled from the spec: the LIS1-A1 receiver: acknowledge the `ENQ`,
then run the frame loop until `EOT`. -/
def lis1a1Receive (stream : List Nat) : Option (List Nat) :=
  match stream with
  | [] => none
  | c :: rest => if c = ENQ then parseFrames rest.length [] [] rest else none

/-- The delivered message: each record followed by one `CR`. -/
def joinCR : List (List Nat) → List Nat
  | [] => []
  | r :: rs => r ++ CR :: joinCR rs

/-- Total number of wire frames of a record list. -/
def totalFrames (rs : List (List Nat)) : Nat :=
  (rs.map fun r => (chunksRec r).length).sum

/-- A record is wire-safe when none of its bytes is a frame terminator. -/
def goodRecord (r : List Nat) : Prop := ∀ c ∈ r, c ≠ ETX ∧ c ≠ ETB

instance (r : List Nat) : Decidable (goodRecord r) := by
  unfold goodRecord; infer_instance

/-! ## FTP/SFTP polling client (`ftpClient.go`)

Shallow embedding of `ftpClient.go`.  Effectful library calls (dial, login,
directory listing, file reads, the handler callbacks) are resolved by an
environment record; the embedded functions compute the trace of observable
events (handler callbacks and remote-file mutations) that the Go code
performs.  The polling loop, which in Go runs until the termination channel
fires, is modelled by the finite list of poll rounds the environment
provides. -/

/-- Errors are abstract; only their presence matters. -/
abbrev Err := String

/-- The error taxonomy surfaced through `Handler.Error` (spec §7). -/
inductive ErrorType
  | maxConnections
  | connect
  | receive
  | send
  | timeout
  | checksumMismatch
  | configuration
  | login
  | internal
deriving DecidableEq, Repr

/-- Go `FTPType` constants. -/
def FTP : Int := 1
def SFTP : Int := 2

/-- Go `AuthenticationMethod` constants. -/
def PASSWORD : Int := 1
def PUBKEY : Int := 2

/-- Go `LINEBREAK` constants. -/
def LINEBREAK_CR : Int := 0x0d
def LINEBREAK_CRLF : Int := 0x0d0a
def LINEBREAK_LF : Int := 0x0a

/-- Go `ftpConfiguration` (the embedded `autoGeneratedFilenames` struct is
flattened; the Go fields `prefix`/`suffix` are named `pfx`/`sfx` here). -/
structure FtpConfiguration where
  authMethod : Int
  user : String
  key : String
  hostkey : String
  pollInterval : Nat
  deleteAfterRead : Bool
  dialTimeout : Nat
  linebreak : Int
  generatorpattern : String
  pfx : String
  sfx : String
  counter : Nat
deriving DecidableEq, Repr

/-- Go `DefaultFTPConfig`. -/
def DefaultFTPConfig : FtpConfiguration :=
  { authMethod := PASSWORD
    user := ""
    key := ""
    hostkey := ""
    pollInterval := 60
    deleteAfterRead := true
    dialTimeout := 10
    linebreak := LINEBREAK_LF
    generatorpattern := "yyyyMMddhhmmss-#.dat"
    pfx := "AUTO-"
    sfx := ""
    counter := 0 }

/-- Go `ftpServerInstance`. -/
structure FtpServerInstance where
  ftpType : Int
  host : String
  port : Int
  hostpath : String
  filemask : String
  config : FtpConfiguration
  isRunning : Bool
deriving DecidableEq, Repr

/-- Go `RemoteAddress`: `return instance.host, nil`. -/
def RemoteAddress (inst : FtpServerInstance) : String × Option Err :=
  (inst.host, none)

/-! ### String helpers mirroring the Go standard library -/

/-- Go `strings.Replace(s, pat, rep, -1)`: replace every non-overlapping
occurrence, left to right, without rescanning the replacement. -/
def replaceAll (s pat rep : List Char) : List Char :=
  match s with
  | [] => []
  | c :: rest =>
    if hp : pat ≠ [] ∧ pat.isPrefixOf (c :: rest) then
      rep ++ replaceAll ((c :: rest).drop pat.length) pat rep
    else c :: replaceAll rest pat rep
termination_by s.length
decreasing_by
  · simp only [List.length_drop, List.length_cons]
    have := List.length_pos.mpr hp.1
    omega
  · simp

def goReplace (s pat rep : String) : String :=
  String.mk (replaceAll s.toList pat.toList rep.toList)

/-- Go `strings.ToUpper` (ASCII-relevant part: uppercase each character). -/
def goToUpper (s : String) : String := String.mk (s.toList.map Char.toUpper)

/-- Go `strings.TrimLeft(s, cutset)`. -/
def goTrimLeft (s cutset : String) : String :=
  String.mk (s.toList.dropWhile (fun c => c ∈ cutset.toList))

/-- Go `strings.TrimRight(s, cutset)`. -/
def goTrimRight (s cutset : String) : String :=
  String.mk (s.toList.reverse.dropWhile (fun c => c ∈ cutset.toList)).reverse

/-- Go `fmt.Sprintf("%0wd", n)` for natural `n`. -/
def padZero (w : Nat) (n : Nat) : String :=
  String.mk (List.replicate (w - (toString n).length) '0') ++ toString n

/-- The `time.Now()` value threaded explicitly. -/
structure GoTime where
  year : Nat
  month : Nat
  day : Nat
  hour : Nat
  minute : Nat
  second : Nat
  nanosecond : Nat
deriving DecidableEq, Repr

/-- Go `generateFileName` (`ftpClient.go:589-610`), with `time.Now()` passed
explicitly.  Note the suffix branch is embedded exactly as written in Go:
`filename = "." + strings.TrimLeft(".", suffix)`. -/
def generateFileName (now : GoTime) (filename pfx sfx : String) (cnt : Nat) : String :=
  let f := goReplace filename "yyyy" (toString now.year)
  let f := goReplace f "yy" ((toString now.year).drop 2)
  let f := goReplace f "MM" (padZero 2 now.month)
  let f := goReplace f "dd" (padZero 2 now.day)
  let f := goReplace f "hh" (padZero 2 now.hour)
  let f := goReplace f "mm" (padZero 2 now.minute)
  let f := goReplace f "ss" (padZero 2 now.second)
  let f := goReplace f "cc" (padZero 3 (now.nanosecond / 1000))
  let f := goReplace f "nn" (padZero 6 now.nanosecond)
  let f := goReplace f "#" (toString cnt)
  let f := if sfx ≠ "" then "." ++ goTrimLeft "." sfx else f
  pfx ++ f

/-- Go `addLineEndings` (it switches on `instance.config.linebreak`, which at
every call site equals the passed parameter). -/
def addLineEndings (msg : List (List Nat)) (linebreak : Int) : List Nat :=
  let lbreak : List Nat :=
    if linebreak = LINEBREAK_CR then [0x0d]
    else if linebreak = LINEBREAK_CRLF then [0x0d, 0x0a]
    else if linebreak = LINEBREAK_LF then [0x0a]
    else [0x0a]
  msg.foldl (fun acc m => acc ++ m ++ lbreak) []

/-! ### Observable events of a polling run -/

/-- Observable actions of the run loops: handler callbacks and remote-file
mutations. -/
inductive Ev
  | errorEv (k : ErrorType)
  | connectedEv
  | dataReceivedEv (data : List Nat) (t : Nat)
  | removeEv (name : String)
  | renameEv (src dst : String)
  | deleteEv (name : String)
deriving DecidableEq, Repr

/-- One remote file as the SFTP loop sees it, together with the outcomes of
the external calls made for it. -/
structure SFTPFile where
  name : String
  modTime : Nat
  content : List Nat
  openErr : Option Err
  readErr : Option Err
  closeErr : Option Err
  dataReceivedResult : Option Err
  removeErr : Option Err
deriving DecidableEq, Repr

/-- Environment of `runWithSFTP`: outcomes of the external calls. -/
structure SFTPEnv where
  base64DecodeErr : Option Err
  parseKeyErr : Option Err
  dialErr : Option Err
  newClientErr : Option Err
  connectedResult : Option Err
  matchFn : String → String → Except Err Bool
  rounds : List (Except Err (List SFTPFile))

/-- Per-file body of the SFTP polling loop (`ftpClient.go:272-317`). -/
def processFileSFTP (matchFn : String → String → Except Err Bool)
    (cfg : FtpConfiguration) (ftpPath filemask : String) (f : SFTPFile) : List Ev :=
  match matchFn (goToUpper filemask) (goToUpper f.name) with
  | .error _ => [Ev.errorEv ErrorType.receive]
  | .ok false => []
  | .ok true =>
    let filename := ftpPath ++ f.name
    match f.openErr with
    | some _ => [Ev.errorEv ErrorType.receive]
    | none =>
      match f.readErr with
      | some _ => [Ev.errorEv ErrorType.receive]
      | none =>
        match f.closeErr with
        | some _ => [Ev.errorEv ErrorType.receive]
        | none =>
          Ev.dataReceivedEv f.content f.modTime ::
            (if f.dataReceivedResult = none ∧ cfg.deleteAfterRead then
              match f.removeErr with
              | some _ => [Ev.removeEv filename, Ev.errorEv ErrorType.internal]
              | none => [Ev.removeEv filename]
            else [])

/-- One poll round of the SFTP loop: a `ReadDir` outcome. -/
def sftpRound (matchFn : String → String → Except Err Bool) (cfg : FtpConfiguration)
    (ftpPath filemask : String) : Except Err (List SFTPFile) → List Ev
  | .error _ => [Ev.errorEv ErrorType.receive]
  | .ok files => (files.map (processFileSFTP matchFn cfg ftpPath filemask)).flatten

def sftpLoop (matchFn : String → String → Except Err Bool) (cfg : FtpConfiguration)
    (ftpPath filemask : String) (rounds : List (Except Err (List SFTPFile))) : List Ev :=
  (rounds.map (sftpRound matchFn cfg ftpPath filemask)).flatten

/-- `runWithSFTP` (`ftpClient.go:194-325`) as a trace of observable events.
On an unknown authentication method the Go code reports `Configuration` and
panics; a dial failure reports `ErrorConfiguration` (sic); an `sftp.NewClient`
failure reports `ErrorConnect`; a rejection by `Connected` reports
`ErrorConnect`. -/
def runWithSFTP (env : SFTPEnv) (inst : FtpServerInstance) : List Ev :=
  if ¬(inst.config.authMethod = PASSWORD ∨ inst.config.authMethod = PUBKEY) then
    [Ev.errorEv ErrorType.configuration]
  else if inst.config.hostkey ≠ "" ∧ env.base64DecodeErr.isSome then
    [Ev.errorEv ErrorType.configuration]
  else if inst.config.hostkey ≠ "" ∧ env.parseKeyErr.isSome then
    [Ev.errorEv ErrorType.configuration]
  else
    match env.dialErr with
    | some _ => [Ev.errorEv ErrorType.configuration]
    | none =>
      match env.newClientErr with
      | some _ => [Ev.errorEv ErrorType.connect]
      | none =>
        if env.connectedResult.isSome then
          [Ev.connectedEv, Ev.errorEv ErrorType.connect]
        else
          Ev.connectedEv ::
            sftpLoop env.matchFn inst.config
              (goTrimRight inst.hostpath "/" ++ "/") inst.filemask env.rounds

/-- One remote file as the FTP loop sees it. -/
structure FTPFile where
  name : String
  time : Nat
  content : List Nat
  renameErr : Option Err
  retrErr : Option Err
  readErr : Option Err
  closeErr : Option Err
  dataReceivedResult : Option Err
  deleteErr : Option Err
deriving DecidableEq, Repr

/-- Environment of `runWithFTP`. -/
structure FTPEnv where
  dialErr : Option Err
  loginErr : Option Err
  connectedResult : Option Err
  matchFn : String → String → Except Err Bool
  rounds : List (Except Err (List FTPFile))

/-- Per-file body of the FTP polling loop (`ftpClient.go:370-421`): rename to
`.processing`, retrieve, deliver, optionally delete. -/
def processFileFTP (matchFn : String → String → Except Err Bool)
    (cfg : FtpConfiguration) (ftpPath filemask : String) (f : FTPFile) : List Ev :=
  match matchFn (goToUpper filemask) (goToUpper f.name) with
  | .error _ => [Ev.errorEv ErrorType.internal]
  | .ok false => []
  | .ok true =>
    match f.renameErr with
    | some _ => [Ev.errorEv ErrorType.receive]
    | none =>
      Ev.renameEv (ftpPath ++ f.name) (ftpPath ++ f.name ++ ".processing") ::
        match f.retrErr with
        | some _ => [Ev.errorEv ErrorType.receive]
        | none =>
          match f.readErr with
          | some _ => [Ev.errorEv ErrorType.receive]
          | none =>
            match f.closeErr with
            | some _ => [Ev.errorEv ErrorType.receive]
            | none =>
              Ev.dataReceivedEv f.content f.time ::
                (if f.dataReceivedResult = none ∧ cfg.deleteAfterRead then
                  match f.deleteErr with
                  | some _ => [Ev.deleteEv (ftpPath ++ f.name ++ ".processing"),
                               Ev.errorEv ErrorType.receive]
                  | none => [Ev.deleteEv (ftpPath ++ f.name ++ ".processing")]
                else [])

def ftpRound (matchFn : String → String → Except Err Bool) (cfg : FtpConfiguration)
    (ftpPath filemask : String) : Except Err (List FTPFile) → List Ev
  | .error _ => [Ev.errorEv ErrorType.receive]
  | .ok files => (files.map (processFileFTP matchFn cfg ftpPath filemask)).flatten

def ftpLoop (matchFn : String → String → Except Err Bool) (cfg : FtpConfiguration)
    (ftpPath filemask : String) (rounds : List (Except Err (List FTPFile))) : List Ev :=
  (rounds.map (ftpRound matchFn cfg ftpPath filemask)).flatten

/-- `runWithFTP` (`ftpClient.go:327-429`) as a trace of observable events.
A dial failure reports `ErrorLogin` (sic); a non-password authentication
method reports `Configuration` and the process exits (`log.Fatal`); a login
failure or a rejection by `Connected` reports `ErrorLogin`. -/
def runWithFTP (env : FTPEnv) (inst : FtpServerInstance) : List Ev :=
  match env.dialErr with
  | some _ => [Ev.errorEv ErrorType.login]
  | none =>
    if inst.config.authMethod ≠ PASSWORD then
      [Ev.errorEv ErrorType.configuration]
    else
      match env.loginErr with
      | some _ => [Ev.errorEv ErrorType.login]
      | none =>
        if env.connectedResult.isSome then
          [Ev.connectedEv, Ev.errorEv ErrorType.login]
        else
          Ev.connectedEv ::
            ftpLoop env.matchFn inst.config
              (goTrimRight inst.hostpath "/" ++ "/") inst.filemask env.rounds

/-! ### Outbound sends -/

/-- Environment of `ftpSend`. -/
structure FtpSendEnv where
  now : GoTime
  dialErr : Option Err
  loginErr : Option Err
  storRes : String → List Nat → Option Err

/-- `ftpSend` (`ftpClient.go:449-487`): note every return, the successful
`Stor` included, carries `-1` as the bytes-written count. -/
def ftpSend (env : FtpSendEnv) (inst : FtpServerInstance) (msg : List (List Nat)) :
    Int × Option Err :=
  match env.dialErr with
  | some e => (-1, some e)
  | none =>
    if inst.config.authMethod ≠ PASSWORD then
      (-1, none)
    else
      match env.loginErr with
      | some e => (-1, some e)
      | none =>
        let ftpPath := goTrimRight inst.hostpath "/" ++ "/"
        let cnt := inst.config.counter + 1
        let generatedFilename := generateFileName env.now inst.config.generatorpattern
          inst.config.pfx inst.config.sfx cnt
        let databytes := addLineEndings msg inst.config.linebreak
        match env.storRes (ftpPath ++ generatedFilename) databytes with
        | some e => (-1, some e)
        | none => (-1, none)

/-- Environment of `sftpSend`. -/
structure SftpSendEnv where
  now : GoTime
  base64DecodeErr : Option Err
  parseKeyErr : Option Err
  dialErr : Option Err
  newClientErr : Option Err
  createErr : String → Option Err
  writeRes : List Nat → Except Err Nat

/-- `sftpSend` (`ftpClient.go:489-561`): on success it returns the actual
number of bytes written. -/
def sftpSend (env : SftpSendEnv) (inst : FtpServerInstance) (msg : List (List Nat)) :
    Int × Option Err :=
  if ¬(inst.config.authMethod = PASSWORD ∨ inst.config.authMethod = PUBKEY) then
    (-1, some "invalid (s)FTP Authentication-Method provided")
  else if inst.config.hostkey ≠ "" ∧ env.base64DecodeErr.isSome then
    (-1, env.base64DecodeErr)
  else if inst.config.hostkey ≠ "" ∧ env.parseKeyErr.isSome then
    (-1, env.parseKeyErr)
  else
    match env.dialErr with
    | some e => (-1, some e)
    | none =>
      match env.newClientErr with
      | some e => (-1, some e)
      | none =>
        let ftpPath := goTrimRight inst.hostpath "/" ++ "/"
        let databytes := addLineEndings msg inst.config.linebreak
        let cnt := inst.config.counter + 1
        let generatedFilename := generateFileName env.now inst.config.generatorpattern
          inst.config.pfx inst.config.sfx cnt
        match env.createErr (ftpPath ++ generatedFilename) with
        | some e => (-1, some e)
        | none =>
          match env.writeRes databytes with
          | .error e => (-1, some e)
          | .ok n => ((n : Int), none)

/-! ### Concrete fixtures used to instantiate the theorems -/

/-- A match function accepting every file. -/
def wMatchTrue : String → String → Except Err Bool := fun _ _ => Except.ok true

def wTime : GoTime := ⟨2026, 10, 11, 12, 0, 0, 0⟩

def wSFile : SFTPFile :=
  { name := "A", modTime := 7, content := [1, 2], openErr := none, readErr := none,
    closeErr := none, dataReceivedResult := none, removeErr := none }

def wFFile : FTPFile :=
  { name := "A", time := 7, content := [1, 2], renameErr := none, retrErr := none,
    readErr := none, closeErr := none, dataReceivedResult := none, deleteErr := none }

def wInst : FtpServerInstance :=
  { ftpType := SFTP, host := "host", port := 22, hostpath := "/data",
    filemask := "*", config := DefaultFTPConfig, isRunning := false }

def wSEnvDialFail : SFTPEnv :=
  { base64DecodeErr := none, parseKeyErr := none, dialErr := some "refused",
    newClientErr := none, connectedResult := none, matchFn := wMatchTrue, rounds := [] }

def wFEnvDialFail : FTPEnv :=
  { dialErr := some "refused", loginErr := none, connectedResult := none,
    matchFn := wMatchTrue, rounds := [] }

def wSEnvOneFile : SFTPEnv :=
  { base64DecodeErr := none, parseKeyErr := none, dialErr := none,
    newClientErr := none, connectedResult := none, matchFn := wMatchTrue,
    rounds := [Except.ok [wSFile]] }

def wFEnvOneFile : FTPEnv :=
  { dialErr := none, loginErr := none, connectedResult := none,
    matchFn := wMatchTrue, rounds := [Except.ok [wFFile]] }

def wFSendEnv : FtpSendEnv :=
  { now := wTime, dialErr := none, loginErr := none, storRes := fun _ _ => none }

def wSSendEnv : SftpSendEnv :=
  { now := wTime, base64DecodeErr := none, parseKeyErr := none, dialErr := none,
    newClientErr := none, createErr := fun _ => none, writeRes := fun _ => Except.ok 5 }

/-! ### LIS1-A1 checksum and round-trip theorems -/

lemma hexDigitU_isUpperHex {n : Nat} (h : n < 16) : isUpperHexDigit (hexDigitU n) := by
  unfold isUpperHexDigit hexDigitU
  split <;> omega

lemma hexValU_hexDigitU {n : Nat} (h : n < 16) : hexValU (hexDigitU n) = n := by
  unfold hexValU hexDigitU
  split <;> split <;> omega

/-- C1: the checksum is two uppercase hexadecimal ASCII characters denoting
the sum of all the bytes modulo 256; on the documented example the result
is `"3D"` (61 decimal). -/
theorem computeChecksum_correct (f b t : List Nat) (_ht : t = [ETX] ∨ t = [ETB]) :
    (computeChecksum f b t).length = 2 ∧
    (∀ c ∈ computeChecksum f b t, isUpperHexDigit c) ∧
    decodeHexPair (computeChecksum f b t) = (f ++ b ++ t).sum % 256 ∧
    computeChecksum (strBytes "1")
      (strBytes "This is transmission text for which we need a checksum")
      [ETX] = strBytes "3D" := by
  refine ⟨rfl, ?_, ?_, by decide⟩
  · intro c hc
    simp only [computeChecksum, List.mem_cons, List.not_mem_nil, or_false] at hc
    rcases hc with h | h <;> subst h
    · exact hexDigitU_isUpperHex (Nat.div_lt_of_lt_mul (by omega : (f ++ b ++ t).sum % 256 < 16 * 16))
    · exact hexDigitU_isUpperHex (Nat.mod_lt _ (by omega))
  · have h256 : (f ++ b ++ t).sum % 256 < 256 := Nat.mod_lt _ (by omega)
    simp only [computeChecksum, decodeHexPair]
    rw [hexValU_hexDigitU (Nat.div_lt_of_lt_mul (by omega)),
        hexValU_hexDigitU (Nat.mod_lt _ (by omega))]
    exact Nat.div_add_mod _ 16

/-- C1 witness: the theorem instantiated at the documented example. -/
theorem computeChecksum_correct_witness :
    (computeChecksum (strBytes "1")
        (strBytes "This is transmission text for which we need a checksum")
        [ETX]).length = 2 ∧
    (∀ c ∈ computeChecksum (strBytes "1")
        (strBytes "This is transmission text for which we need a checksum")
        [ETX], isUpperHexDigit c) ∧
    decodeHexPair (computeChecksum (strBytes "1")
        (strBytes "This is transmission text for which we need a checksum")
        [ETX]) =
      (strBytes "1" ++ strBytes "This is transmission text for which we need a checksum"
        ++ [ETX]).sum % 256 ∧
    computeChecksum (strBytes "1")
      (strBytes "This is transmission text for which we need a checksum")
      [ETX] = strBytes "3D" :=
  computeChecksum_correct (strBytes "1")
    (strBytes "This is transmission text for which we need a checksum")
    [ETX] (Or.inl rfl)

lemma splitFrame_append (b : List Nat) (hb : goodRecord b)
    (term : Nat) (hterm : term = ETX ∨ term = ETB) (rest : List Nat) :
    splitFrame (b ++ term :: rest) = some (b, term, rest) := by
  induction b with
  | nil =>
    simp only [List.nil_append, splitFrame]
    rw [if_pos hterm]
  | cons c b ih =>
    have hc := hb c (by simp)
    have hnc : ¬(c = ETX ∨ c = ETB) := by tauto
    simp only [List.cons_append, splitFrame, List.append_eq]
    rw [if_neg hnc, ih (fun x hx => hb x (List.mem_cons_of_mem c hx))]

lemma parseFrames_frame (fuel fno : Nat) (b : List Nat) (hb : goodRecord b)
    (term : Nat) (hterm : term = ETX ∨ term = ETB) (acc part rest : List Nat) :
    parseFrames (fuel + 1) acc part (frameBytes fno b term ++ rest) =
      if term = ETX then parseFrames fuel (acc ++ part ++ b ++ [CR]) [] rest
      else parseFrames fuel acc (part ++ b) rest := by
  obtain ⟨h, l, hcs⟩ : ∃ h l, computeChecksum [frameDigit fno] b [term] = [h, l] :=
    ⟨_, _, rfl⟩
  simp only [frameBytes, hcs, List.cons_append, List.append_assoc, List.nil_append]
  simp only [parseFrames]
  rw [if_neg (by decide : ¬((STX : Nat) = EOT))]
  simp only [if_true, eq_self_iff_true, ite_true]
  rw [splitFrame_append b hb term hterm (h :: l :: CR :: LF :: rest)]
  simp only [hcs, eq_self_iff_true, and_self, true_and, if_true, ite_true]
  rcases hterm with ht | ht <;> subst ht
  · rw [if_pos rfl, if_pos rfl]
    simp [List.append_assoc]
  · rw [if_neg (by decide : ¬((ETB : Nat) = ETX)),
      if_neg (by decide : ¬((ETB : Nat) = ETX))]

lemma parseFrames_encChunks (cs : List (List Nat)) (hne : cs ≠ [])
    (hcs : ∀ c ∈ cs, goodRecord c) :
    ∀ fno acc part fuel rest,
      parseFrames (cs.length + fuel) acc part (encChunks fno cs ++ rest) =
        parseFrames fuel (acc ++ part ++ cs.flatten ++ [CR]) [] rest := by
  induction cs with
  | nil => exact absurd rfl hne
  | cons c cs ih =>
    intro fno acc part fuel rest
    match cs with
    | [] =>
      have hfuel : ([c] : List (List Nat)).length + fuel = fuel + 1 := by
        simp only [List.length_cons, List.length_nil]; omega
      rw [hfuel]
      simp only [encChunks]
      rw [parseFrames_frame fuel fno c (hcs c (by simp)) ETX (Or.inl rfl) acc part rest]
      rw [if_pos rfl]
      simp [List.append_assoc]
    | c2 :: cs' =>
      have hfuel : (c :: c2 :: cs').length + fuel = ((c2 :: cs').length + fuel) + 1 := by
        simp only [List.length_cons]; omega
      rw [hfuel]
      simp only [encChunks, List.append_assoc]
      rw [parseFrames_frame ((c2 :: cs').length + fuel) fno c (hcs c (by simp)) ETB
        (Or.inr rfl) acc part (encChunks (fno + 1) (c2 :: cs') ++ rest)]
      rw [if_neg (by decide : ¬((ETB : Nat) = ETX))]
      rw [ih (by simp) (fun x hx => hcs x (List.mem_cons_of_mem c hx)) (fno + 1) acc
        (part ++ c) fuel rest]
      simp [List.append_assoc]

lemma chunksRec_ne_nil (r : List Nat) : chunksRec r ≠ [] := by
  unfold chunksRec
  split <;> simp

lemma chunksRec_flatten (r : List Nat) : (chunksRec r).flatten = r := by
  induction r using chunksRec.induct with
  | case1 r hle => rw [chunksRec, if_pos hle]; simp
  | case2 r hle ih =>
    rw [chunksRec, if_neg hle]
    simp only [List.flatten_cons, ih, List.take_append_drop]

lemma chunksRec_good (r : List Nat) (hr : goodRecord r) :
    ∀ c ∈ chunksRec r, goodRecord c := by
  induction r using chunksRec.induct with
  | case1 r hle =>
    rw [chunksRec, if_pos hle]
    intro c hc
    simp only [List.mem_singleton] at hc
    exact hc ▸ hr
  | case2 r hle ih =>
    rw [chunksRec, if_neg hle]
    intro c hc
    simp only [List.mem_cons] at hc
    rcases hc with hc | hc
    · exact fun x hx => hr x (List.take_subset _ _ (hc ▸ hx))
    · exact ih (fun x hx => hr x (List.drop_subset _ _ hx)) c hc

lemma parseFrames_encRecords (rs : List (List Nat)) (hrs : ∀ r ∈ rs, goodRecord r) :
    ∀ fno acc fuel rest,
      parseFrames (totalFrames rs + (fuel + 1)) acc [] (encRecords fno rs ++ EOT :: rest) =
        some (acc ++ joinCR rs) := by
  induction rs with
  | nil =>
    intro fno acc fuel rest
    simp only [totalFrames, List.map_nil, List.sum_nil, Nat.zero_add, encRecords,
      List.nil_append, joinCR, List.append_nil]
    simp [parseFrames, EOT]
  | cons r rs ih =>
    intro fno acc fuel rest
    have htf : totalFrames (r :: rs) + (fuel + 1) =
        (chunksRec r).length + (totalFrames rs + (fuel + 1)) := by
      simp only [totalFrames, List.map_cons, List.sum_cons]; omega
    rw [htf]
    simp only [encRecords, List.append_assoc]
    rw [parseFrames_encChunks (chunksRec r) (chunksRec_ne_nil r)
      (chunksRec_good r (hrs r (by simp)))]
    rw [chunksRec_flatten]
    rw [ih (fun x hx => hrs x (List.mem_cons_of_mem r hx)) (fno + (chunksRec r).length)
      (acc ++ [] ++ r ++ [CR]) fuel rest]
    simp [joinCR, List.append_assoc]

lemma computeChecksum_length (f b t : List Nat) : (computeChecksum f b t).length = 2 :=
  rfl

lemma encChunks_length_ge (cs : List (List Nat)) :
    ∀ fno, cs.length ≤ (encChunks fno cs).length := by
  induction cs with
  | nil => simp [encChunks]
  | cons c cs ih =>
    intro fno
    match cs with
    | [] => simp [encChunks, frameBytes]
    | c2 :: cs' =>
      have h3 := ih (fno + 1)
      simp only [List.length_cons] at h3
      simp only [encChunks, List.length_append, List.length_cons]
      simp only [frameBytes, List.length_cons, List.length_append, List.length_nil,
        computeChecksum_length]
      omega

lemma encRecords_length_ge (rs : List (List Nat)) :
    ∀ fno, totalFrames rs ≤ (encRecords fno rs).length := by
  induction rs with
  | nil => simp [encRecords, totalFrames]
  | cons r rs ih =>
    intro fno
    have h1 := encChunks_length_ge (chunksRec r) fno
    have h2 := ih (fno + (chunksRec r).length)
    simp only [encRecords, totalFrames, List.map_cons, List.sum_cons, List.length_append]
    simp only [totalFrames] at h2
    omega

/-- C2 counterexample: the round trip does not hold for *every* list of
records — a record containing a frame-terminator byte (here a single `ETX`)
is framed into a wire stream the receiver rejects: the receiver finds the
embedded `ETX` first, reads the true terminator and checksum bytes in the
wrong positions, and fails, so the claim as stated is false at
`records = [[ETX]]`. -/
theorem lis1a1_roundTrip_counterexample :
    lis1a1Receive (lis1a1Send [[ETX]]) = none ∧
    lis1a1Receive (lis1a1Send [[ETX]]) ≠ some (joinCR [[ETX]]) := by
  have h1 : chunksRec [3] = [[3]] := by
    rw [chunksRec]
    simp [maxFramePayload]
  have hsend : lis1a1Send [[ETX]] = [ENQ, STX, 49, ETX, ETX, 51, 55, CR, LF, EOT] := by
    simp [lis1a1Send, encRecords, h1, encChunks, frameBytes, frameDigit,
      computeChecksum, hexDigitU, ENQ, STX, ETX, CR, LF, EOT]
  rw [hsend]
  exact ⟨by decide, by decide⟩

/-- C2 (amended): for every list of records none of whose bytes is a frame
terminator (`ETX` or `ETB`), sending the records with the LIS1-A1 sender
through a pipe and receiving them with the LIS1-A1 receiver yields exactly
the concatenation of the records, each followed by one `CR` byte. -/
theorem lis1a1_roundTrip (records : List (List Nat))
    (h : ∀ r ∈ records, goodRecord r) :
    lis1a1Receive (lis1a1Send records) = some (joinCR records) := by
  have hge := encRecords_length_ge records 1
  obtain ⟨k, hk⟩ : ∃ k, (encRecords 1 records).length = totalFrames records + k :=
    ⟨(encRecords 1 records).length - totalFrames records, by omega⟩
  have hrecv : lis1a1Receive (lis1a1Send records) =
      parseFrames (encRecords 1 records ++ [EOT]).length [] []
        (encRecords 1 records ++ [EOT]) := rfl
  rw [hrecv]
  have hlen : (encRecords 1 records ++ [EOT]).length = totalFrames records + (k + 1) := by
    simp only [List.length_append, List.length_cons, List.length_nil, hk]
    omega
  rw [hlen]
  have := parseFrames_encRecords records h 1 [] k []
  simpa using this

/-- C2 witness: the round trip on a concrete pair of records. -/
theorem lis1a1_roundTrip_witness :
    (∀ r ∈ [[72, 124], [79, 124]], goodRecord r) ∧
      lis1a1Receive (lis1a1Send [[72, 124], [79, 124]]) =
        some [72, 124, CR, 79, 124, CR] :=
  ⟨by decide, lis1a1_roundTrip [[72, 124], [79, 124]] (by decide)⟩

/-! ### Characterization of the per-file processing -/

lemma processFileSFTP_dataReceived (matchFn : String → String → Except Err Bool)
    (cfg : FtpConfiguration) (p m : String) (f : SFTPFile) (d : List Nat) (t : Nat) :
    Ev.dataReceivedEv d t ∈ processFileSFTP matchFn cfg p m f ↔
      (matchFn (goToUpper m) (goToUpper f.name) = .ok true ∧ f.openErr = none ∧
        f.readErr = none ∧ f.closeErr = none ∧ d = f.content ∧ t = f.modTime) := by
  unfold processFileSFTP
  repeat' split
  all_goals simp_all

lemma processFileSFTP_remove (matchFn : String → String → Except Err Bool)
    (cfg : FtpConfiguration) (p m : String) (f : SFTPFile) (n : String) :
    Ev.removeEv n ∈ processFileSFTP matchFn cfg p m f ↔
      (matchFn (goToUpper m) (goToUpper f.name) = .ok true ∧ f.openErr = none ∧
        f.readErr = none ∧ f.closeErr = none ∧ f.dataReceivedResult = none ∧
        cfg.deleteAfterRead = true ∧ n = p ++ f.name) := by
  unfold processFileSFTP
  repeat' split
  all_goals simp_all

lemma processFileSFTP_no_connected (matchFn : String → String → Except Err Bool)
    (cfg : FtpConfiguration) (p m : String) (f : SFTPFile) :
    Ev.connectedEv ∉ processFileSFTP matchFn cfg p m f := by
  unfold processFileSFTP
  repeat' split
  all_goals simp_all

lemma processFileFTP_dataReceived (matchFn : String → String → Except Err Bool)
    (cfg : FtpConfiguration) (p m : String) (f : FTPFile) (d : List Nat) (t : Nat) :
    Ev.dataReceivedEv d t ∈ processFileFTP matchFn cfg p m f ↔
      (matchFn (goToUpper m) (goToUpper f.name) = .ok true ∧ f.renameErr = none ∧
        f.retrErr = none ∧ f.readErr = none ∧ f.closeErr = none ∧
        d = f.content ∧ t = f.time) := by
  unfold processFileFTP
  repeat' split
  all_goals simp_all

lemma processFileFTP_delete (matchFn : String → String → Except Err Bool)
    (cfg : FtpConfiguration) (p m : String) (f : FTPFile) (n : String) :
    Ev.deleteEv n ∈ processFileFTP matchFn cfg p m f ↔
      (matchFn (goToUpper m) (goToUpper f.name) = .ok true ∧ f.renameErr = none ∧
        f.retrErr = none ∧ f.readErr = none ∧ f.closeErr = none ∧
        f.dataReceivedResult = none ∧ cfg.deleteAfterRead = true ∧
        n = p ++ f.name ++ ".processing") := by
  unfold processFileFTP
  repeat' split
  all_goals simp_all

lemma processFileFTP_no_connected (matchFn : String → String → Except Err Bool)
    (cfg : FtpConfiguration) (p m : String) (f : FTPFile) :
    Ev.connectedEv ∉ processFileFTP matchFn cfg p m f := by
  unfold processFileFTP
  repeat' split
  all_goals simp_all

lemma mem_sftpLoop (matchFn : String → String → Except Err Bool)
    (cfg : FtpConfiguration) (p m : String) (rounds : List (Except Err (List SFTPFile)))
    (e : Ev) :
    e ∈ sftpLoop matchFn cfg p m rounds ↔
      ∃ r ∈ rounds, e ∈ sftpRound matchFn cfg p m r := by
  simp [sftpLoop, List.mem_flatten, List.mem_map]

lemma mem_ftpLoop (matchFn : String → String → Except Err Bool)
    (cfg : FtpConfiguration) (p m : String) (rounds : List (Except Err (List FTPFile)))
    (e : Ev) :
    e ∈ ftpLoop matchFn cfg p m rounds ↔
      ∃ r ∈ rounds, e ∈ ftpRound matchFn cfg p m r := by
  simp [ftpLoop, List.mem_flatten, List.mem_map]

lemma sftpLoop_no_connected (matchFn : String → String → Except Err Bool)
    (cfg : FtpConfiguration) (p m : String)
    (rounds : List (Except Err (List SFTPFile))) :
    Ev.connectedEv ∉ sftpLoop matchFn cfg p m rounds := by
  rw [mem_sftpLoop]
  rintro ⟨r, _, hr⟩
  cases r with
  | error e => simp [sftpRound] at hr
  | ok files =>
    simp only [sftpRound, List.mem_flatten, List.mem_map] at hr
    obtain ⟨_, ⟨f, _, rfl⟩, hmem⟩ := hr
    exact processFileSFTP_no_connected matchFn cfg p m f hmem

lemma ftpLoop_no_connected (matchFn : String → String → Except Err Bool)
    (cfg : FtpConfiguration) (p m : String)
    (rounds : List (Except Err (List FTPFile))) :
    Ev.connectedEv ∉ ftpLoop matchFn cfg p m rounds := by
  rw [mem_ftpLoop]
  rintro ⟨r, _, hr⟩
  cases r with
  | error e => simp [ftpRound] at hr
  | ok files =>
    simp only [ftpRound, List.mem_flatten, List.mem_map] at hr
    obtain ⟨_, ⟨f, _, rfl⟩, hmem⟩ := hr
    exact processFileFTP_no_connected matchFn cfg p m f hmem

/-! ### Claims about the polling client -/

/-- C3: in both polling loops, after `DataReceived` returns for a polled
file, the remote file is deleted iff `DataReceived` returned nil and the
`deleteAfterRead` flag is set. -/
theorem deleteAfterRead_policy (matchFn : String → String → Except Err Bool)
    (cfg : FtpConfiguration) (p m : String) (fs : SFTPFile) (ff : FTPFile)
    (hs : Ev.dataReceivedEv fs.content fs.modTime ∈ processFileSFTP matchFn cfg p m fs)
    (hf : Ev.dataReceivedEv ff.content ff.time ∈ processFileFTP matchFn cfg p m ff) :
    (Ev.removeEv (p ++ fs.name) ∈ processFileSFTP matchFn cfg p m fs ↔
      (fs.dataReceivedResult = none ∧ cfg.deleteAfterRead = true)) ∧
    (Ev.deleteEv (p ++ ff.name ++ ".processing") ∈ processFileFTP matchFn cfg p m ff ↔
      (ff.dataReceivedResult = none ∧ cfg.deleteAfterRead = true)) := by
  rw [processFileSFTP_dataReceived] at hs
  rw [processFileFTP_dataReceived] at hf
  constructor
  · rw [processFileSFTP_remove]
    constructor
    · rintro ⟨_, _, _, _, h5, h6, _⟩; exact ⟨h5, h6⟩
    · rintro ⟨h5, h6⟩
      exact ⟨hs.1, hs.2.1, hs.2.2.1, hs.2.2.2.1, h5, h6, rfl⟩
  · rw [processFileFTP_delete]
    constructor
    · rintro ⟨_, _, _, _, _, h6, h7, _⟩; exact ⟨h6, h7⟩
    · rintro ⟨h6, h7⟩
      exact ⟨hf.1, hf.2.1, hf.2.2.1, hf.2.2.2.1, hf.2.2.2.2.1, h6, h7, rfl⟩

/-- C3 witness: concrete file processed with default configuration. -/
theorem deleteAfterRead_policy_witness :
    (Ev.removeEv ("/data/" ++ wSFile.name) ∈
        processFileSFTP wMatchTrue DefaultFTPConfig "/data/" "*" wSFile ↔
      (wSFile.dataReceivedResult = none ∧ DefaultFTPConfig.deleteAfterRead = true)) ∧
    (Ev.deleteEv ("/data/" ++ wFFile.name ++ ".processing") ∈
        processFileFTP wMatchTrue DefaultFTPConfig "/data/" "*" wFFile ↔
      (wFFile.dataReceivedResult = none ∧ DefaultFTPConfig.deleteAfterRead = true)) :=
  deleteAfterRead_policy wMatchTrue DefaultFTPConfig "/data/" "*" wSFile wFFile
    (by decide) (by decide)

/-- C4 (code bug): with a non-empty suffix, `generateFileName` overwrites the
whole substituted pattern with `"." + strings.TrimLeft(".", suffix)` (the
`TrimLeft` arguments are swapped and the assignment discards the generated
name), so the substituted pattern is never part of the result; concretely,
pattern `"data-#.x"`, prefix `"P"`, suffix `"txt"`, counter 5 yields
`"P.."`. -/
theorem generateFileName_discards_pattern (now : GoTime) (pattern p s : String)
    (cnt : Nat) (hs : s ≠ "") :
    generateFileName now pattern p s cnt = p ++ ("." ++ goTrimLeft "." s) ∧
    generateFileName wTime "data-#.x" "P" "txt" 5 = "P.." := by
  constructor
  · unfold generateFileName
    simp [hs]
  · decide

/-- C4 witness: the theorem instantiated at a concrete non-empty suffix. -/
theorem generateFileName_discards_pattern_witness :
    generateFileName wTime "f-#.y" "Q" "zz" 3 = "Q" ++ ("." ++ goTrimLeft "." "zz") ∧
    generateFileName wTime "data-#.x" "P" "txt" 5 = "P.." :=
  generateFileName_discards_pattern wTime "f-#.y" "Q" "zz" 3 (by decide)

/-- C5 counterexample: on a dial failure the error kind surfaced is
`Configuration` (SFTP) resp. `Login` (FTP), not `Connect`, contradicting the
claim as stated. -/
theorem dialFail_kind_counterexample :
    runWithSFTP wSEnvDialFail wInst = [Ev.errorEv ErrorType.configuration] ∧
    Ev.errorEv ErrorType.connect ∉ runWithSFTP wSEnvDialFail wInst ∧
    runWithFTP wFEnvDialFail wInst = [Ev.errorEv ErrorType.login] ∧
    Ev.errorEv ErrorType.connect ∉ runWithFTP wFEnvDialFail wInst := by
  refine ⟨by decide, by decide, by decide, by decide⟩

/-- C5 (amended): when the transport dial fails, the run reports exactly one
error — of kind `Configuration` for SFTP and `Login` for FTP — and returns
without ever invoking `Connected`. -/
theorem dialFail_reportsError (sev : SFTPEnv) (fev : FTPEnv)
    (inst : FtpServerInstance) (e1 e2 : Err)
    (hauth : inst.config.authMethod = PASSWORD ∨ inst.config.authMethod = PUBKEY)
    (hkey : inst.config.hostkey = "" ∨
      (sev.base64DecodeErr = none ∧ sev.parseKeyErr = none))
    (hds : sev.dialErr = some e1) (hdf : fev.dialErr = some e2) :
    runWithSFTP sev inst = [Ev.errorEv ErrorType.configuration] ∧
    runWithFTP fev inst = [Ev.errorEv ErrorType.login] ∧
    Ev.connectedEv ∉ runWithSFTP sev inst ∧
    Ev.connectedEv ∉ runWithFTP fev inst := by
  have h1 : runWithSFTP sev inst = [Ev.errorEv ErrorType.configuration] := by
    unfold runWithSFTP
    rw [if_neg (by tauto)]
    rcases hkey with hk | ⟨hb, hp⟩
    · rw [if_neg (by simp [hk]), if_neg (by simp [hk]), hds]
    · rw [if_neg (by simp [hb]), if_neg (by simp [hp]), hds]
  have h2 : runWithFTP fev inst = [Ev.errorEv ErrorType.login] := by
    unfold runWithFTP
    rw [hdf]
  refine ⟨h1, h2, ?_, ?_⟩
  · rw [h1]; decide
  · rw [h2]; decide

/-- C5 witness: the amended theorem at the concrete dial-failure
environments. -/
theorem dialFail_reportsError_witness :
    runWithSFTP wSEnvDialFail wInst = [Ev.errorEv ErrorType.configuration] ∧
    runWithFTP wFEnvDialFail wInst = [Ev.errorEv ErrorType.login] ∧
    Ev.connectedEv ∉ runWithSFTP wSEnvDialFail wInst ∧
    Ev.connectedEv ∉ runWithFTP wFEnvDialFail wInst :=
  dialFail_reportsError wSEnvDialFail wFEnvDialFail wInst "refused" "refused"
    (Or.inl rfl) (Or.inl rfl) rfl rfl

/-- C6: in every run of either polling loop that reaches the session,
`Connected` is invoked exactly once, before any `DataReceived`; if
`Connected` rejects, an error is reported and the run terminates without any
`DataReceived`. -/
theorem connected_once_before_data (sev : SFTPEnv) (fev : FTPEnv)
    (inst : FtpServerInstance)
    (hauth : inst.config.authMethod = PASSWORD ∨ inst.config.authMethod = PUBKEY)
    (hkey : inst.config.hostkey = "" ∨
      (sev.base64DecodeErr = none ∧ sev.parseKeyErr = none))
    (hds : sev.dialErr = none) (hnc : sev.newClientErr = none)
    (hdf : fev.dialErr = none) (hauthF : inst.config.authMethod = PASSWORD)
    (hlf : fev.loginErr = none) :
    (∃ post, runWithSFTP sev inst = Ev.connectedEv :: post ∧
      Ev.connectedEv ∉ post ∧
      (sev.connectedResult ≠ none → post = [Ev.errorEv ErrorType.connect] ∧
        ∀ d t, Ev.dataReceivedEv d t ∉ post)) ∧
    (∃ post, runWithFTP fev inst = Ev.connectedEv :: post ∧
      Ev.connectedEv ∉ post ∧
      (fev.connectedResult ≠ none → post = [Ev.errorEv ErrorType.login] ∧
        ∀ d t, Ev.dataReceivedEv d t ∉ post)) := by
  constructor
  · have hrun : runWithSFTP sev inst =
        (if sev.connectedResult.isSome then
          [Ev.connectedEv, Ev.errorEv ErrorType.connect]
        else Ev.connectedEv ::
          sftpLoop sev.matchFn inst.config
            (goTrimRight inst.hostpath "/" ++ "/") inst.filemask sev.rounds) := by
      unfold runWithSFTP
      rw [if_neg (by tauto)]
      rcases hkey with hk | ⟨hb, hp⟩
      · rw [if_neg (by simp [hk]), if_neg (by simp [hk]), hds, hnc]
      · rw [if_neg (by simp [hb]), if_neg (by simp [hp]), hds, hnc]
    cases hcr : sev.connectedResult with
    | some e =>
      refine ⟨[Ev.errorEv ErrorType.connect], ?_, by decide,
        fun _ => ⟨rfl, fun d t => by simp⟩⟩
      rw [hrun, hcr]
      rfl
    | none =>
      refine ⟨sftpLoop sev.matchFn inst.config
          (goTrimRight inst.hostpath "/" ++ "/") inst.filemask sev.rounds, ?_, ?_, ?_⟩
      · rw [hrun, hcr]
        rfl
      · exact sftpLoop_no_connected _ _ _ _ _
      · intro hne
        exact absurd rfl hne
  · have hrun : runWithFTP fev inst =
        (if fev.connectedResult.isSome then
          [Ev.connectedEv, Ev.errorEv ErrorType.login]
        else Ev.connectedEv ::
          ftpLoop fev.matchFn inst.config
            (goTrimRight inst.hostpath "/" ++ "/") inst.filemask fev.rounds) := by
      unfold runWithFTP
      rw [hdf]
      rw [if_neg (by simp [hauthF]), hlf]
    cases hcr : fev.connectedResult with
    | some e =>
      refine ⟨[Ev.errorEv ErrorType.login], ?_, by decide,
        fun d => ⟨rfl, fun d t => by simp⟩⟩
      rw [hrun, hcr]
      rfl
    | none =>
      refine ⟨ftpLoop fev.matchFn inst.config
          (goTrimRight inst.hostpath "/" ++ "/") inst.filemask fev.rounds, ?_, ?_, ?_⟩
      · rw [hrun, hcr]
        rfl
      · exact ftpLoop_no_connected _ _ _ _ _
      · intro hne
        exact absurd rfl hne

/-- C6 witness: the theorem at a concrete one-file environment. -/
theorem connected_once_before_data_witness :
    (∃ post, runWithSFTP wSEnvOneFile wInst = Ev.connectedEv :: post ∧
      Ev.connectedEv ∉ post ∧
      (wSEnvOneFile.connectedResult ≠ none → post = [Ev.errorEv ErrorType.connect] ∧
        ∀ d t, Ev.dataReceivedEv d t ∉ post)) ∧
    (∃ post, runWithFTP wFEnvOneFile wInst = Ev.connectedEv :: post ∧
      Ev.connectedEv ∉ post ∧
      (wFEnvOneFile.connectedResult ≠ none → post = [Ev.errorEv ErrorType.login] ∧
        ∀ d t, Ev.dataReceivedEv d t ∉ post)) :=
  connected_once_before_data wSEnvOneFile wFEnvOneFile wInst
    (Or.inl rfl) (Or.inl rfl) rfl rfl rfl rfl rfl

/-- C7: every `DataReceived` issued by either polling loop delivers the
contents of some polled file and carries that file's modification time as
its timestamp. -/
theorem dataReceived_uses_modTime (sev : SFTPEnv) (fev : FTPEnv)
    (inst : FtpServerInstance) (d : List Nat) (t : Nat) :
    (Ev.dataReceivedEv d t ∈ runWithSFTP sev inst →
      ∃ files f, Except.ok files ∈ sev.rounds ∧ f ∈ files ∧
        d = f.content ∧ t = f.modTime) ∧
    (Ev.dataReceivedEv d t ∈ runWithFTP fev inst →
      ∃ files f, Except.ok files ∈ fev.rounds ∧ f ∈ files ∧
        d = f.content ∧ t = f.time) := by
  constructor
  · intro h
    unfold runWithSFTP at h
    split at h
    · simp at h
    · split at h
      · simp at h
      · split at h
        · simp at h
        · split at h
          · simp at h
          · split at h
            · simp at h
            · split at h
              · simp at h
              · simp only [List.mem_cons] at h
                rcases h with h | h
                · exact absurd h (by simp)
                · rw [mem_sftpLoop] at h
                  obtain ⟨r, hr, hmem⟩ := h
                  cases r with
                  | error e => simp [sftpRound] at hmem
                  | ok files =>
                    simp only [sftpRound, List.mem_flatten, List.mem_map] at hmem
                    obtain ⟨_, ⟨f, hf, rfl⟩, hm⟩ := hmem
                    rw [processFileSFTP_dataReceived] at hm
                    exact ⟨files, f, hr, hf, hm.2.2.2.2.1, hm.2.2.2.2.2⟩
  · intro h
    unfold runWithFTP at h
    split at h
    · simp at h
    · split at h
      · simp at h
      · split at h
        · simp at h
        · split at h
          · simp at h
          · simp only [List.mem_cons] at h
            rcases h with h | h
            · exact absurd h (by simp)
            · rw [mem_ftpLoop] at h
              obtain ⟨r, hr, hmem⟩ := h
              cases r with
              | error e => simp [ftpRound] at hmem
              | ok files =>
                simp only [ftpRound, List.mem_flatten, List.mem_map] at hmem
                obtain ⟨_, ⟨f, hf, rfl⟩, hm⟩ := hmem
                rw [processFileFTP_dataReceived] at hm
                exact ⟨files, f, hr, hf, hm.2.2.2.2.2.1, hm.2.2.2.2.2.2⟩

/-- C7 witness: the theorem applied to a run delivering one concrete file. -/
theorem dataReceived_uses_modTime_witness :
    (∃ files f, Except.ok files ∈ wSEnvOneFile.rounds ∧ f ∈ files ∧
      ([1, 2] : List Nat) = f.content ∧ 7 = f.modTime) ∧
    (∃ files f, Except.ok files ∈ wFEnvOneFile.rounds ∧ f ∈ files ∧
      ([1, 2] : List Nat) = f.content ∧ 7 = f.time) :=
  ⟨(dataReceived_uses_modTime wSEnvOneFile wFEnvOneFile wInst [1, 2] 7).1 (by decide),
   (dataReceived_uses_modTime wSEnvOneFile wFEnvOneFile wInst [1, 2] 7).2 (by decide)⟩

/-- C8: `RemoteAddress` returns the configured remote host and a nil error,
for every instance, in every state. -/
theorem remoteAddress_never_fails (inst : FtpServerInstance) :
    RemoteAddress inst = (inst.host, none) := rfl

/-- C9: a polled file is read and delivered iff the match function accepts
its uppercased name against the uppercased filemask; consequently selection
is case-insensitive in the file name. -/
theorem filemask_case_insensitive (matchFn : String → String → Except Err Bool)
    (cfg : FtpConfiguration) (p m : String) (fs : SFTPFile) (ff : FTPFile)
    (hs1 : fs.openErr = none) (hs2 : fs.readErr = none) (hs3 : fs.closeErr = none)
    (hf1 : ff.renameErr = none) (hf2 : ff.retrErr = none) (hf3 : ff.readErr = none)
    (hf4 : ff.closeErr = none) :
    (Ev.dataReceivedEv fs.content fs.modTime ∈ processFileSFTP matchFn cfg p m fs ↔
      matchFn (goToUpper m) (goToUpper fs.name) = .ok true) ∧
    (Ev.dataReceivedEv ff.content ff.time ∈ processFileFTP matchFn cfg p m ff ↔
      matchFn (goToUpper m) (goToUpper ff.name) = .ok true) ∧
    (∀ n1 n2 : String, goToUpper n1 = goToUpper n2 →
      (Ev.dataReceivedEv fs.content fs.modTime ∈
          processFileSFTP matchFn cfg p m { fs with name := n1 } ↔
        Ev.dataReceivedEv fs.content fs.modTime ∈
          processFileSFTP matchFn cfg p m { fs with name := n2 })) := by
  refine ⟨?_, ?_, ?_⟩
  · rw [processFileSFTP_dataReceived]
    simp [hs1, hs2, hs3]
  · rw [processFileFTP_dataReceived]
    simp [hf1, hf2, hf3, hf4]
  · intro n1 n2 hn
    rw [processFileSFTP_dataReceived, processFileSFTP_dataReceived]
    simp [hs1, hs2, hs3, hn]

/-- C9 witness: concrete file and the names `"a"` and `"A"`. -/
theorem filemask_case_insensitive_witness :
    (Ev.dataReceivedEv wSFile.content wSFile.modTime ∈
        processFileSFTP wMatchTrue DefaultFTPConfig "/data/" "*" wSFile ↔
      wMatchTrue (goToUpper "*") (goToUpper wSFile.name) = .ok true) ∧
    (Ev.dataReceivedEv wFFile.content wFFile.time ∈
        processFileFTP wMatchTrue DefaultFTPConfig "/data/" "*" wFFile ↔
      wMatchTrue (goToUpper "*") (goToUpper wFFile.name) = .ok true) ∧
    (Ev.dataReceivedEv wSFile.content wSFile.modTime ∈
        processFileSFTP wMatchTrue DefaultFTPConfig "/data/" "*"
          { wSFile with name := "a" } ↔
      Ev.dataReceivedEv wSFile.content wSFile.modTime ∈
        processFileSFTP wMatchTrue DefaultFTPConfig "/data/" "*"
          { wSFile with name := "A" }) := by
  have h := filemask_case_insensitive wMatchTrue DefaultFTPConfig "/data/" "*"
    wSFile wFFile rfl rfl rfl rfl rfl rfl rfl
  exact ⟨h.1, h.2.1, h.2.2 "a" "A" (by decide)⟩

/-- C10: `ftpSend` returns `-1` as its bytes-written count in every case —
with a nil error when the upload succeeds — whereas `sftpSend` returns the
actual number of bytes written on success. -/
theorem send_return_values (fenv : FtpSendEnv) (senv : SftpSendEnv)
    (inst : FtpServerInstance) (msg : List (List Nat)) (n : Nat)
    (hf1 : fenv.dialErr = none) (hf2 : inst.config.authMethod = PASSWORD)
    (hf3 : fenv.loginErr = none) (hf4 : ∀ s d, fenv.storRes s d = none)
    (hs0 : inst.config.hostkey = "" ∨
      (senv.base64DecodeErr = none ∧ senv.parseKeyErr = none))
    (hs1 : senv.dialErr = none) (hs2 : senv.newClientErr = none)
    (hs3 : ∀ s, senv.createErr s = none) (hs4 : ∀ d, senv.writeRes d = .ok n) :
    (∀ (fenv2 : FtpSendEnv) (inst2 : FtpServerInstance) (msg2 : List (List Nat)),
      (ftpSend fenv2 inst2 msg2).1 = -1) ∧
    ftpSend fenv inst msg = (-1, none) ∧
    sftpSend senv inst msg = ((n : Int), none) := by
  refine ⟨?_, ?_, ?_⟩
  · intro fenv2 inst2 msg2
    unfold ftpSend
    dsimp only
    repeat' split
    all_goals rfl
  · unfold ftpSend
    rw [hf1]
    rw [if_neg (by simp [hf2]), hf3]
    dsimp only
    rw [hf4]
  · unfold sftpSend
    rw [if_neg (by tauto)]
    have hkey : ∀ rest1 rest2 : Int × Option Err,
        (if inst.config.hostkey ≠ "" ∧ senv.base64DecodeErr.isSome then rest1
          else if inst.config.hostkey ≠ "" ∧ senv.parseKeyErr.isSome then rest2
          else (match senv.dialErr with
            | some e => (-1, some e)
            | none =>
              match senv.newClientErr with
              | some e => (-1, some e)
              | none =>
                match senv.createErr (goTrimRight inst.hostpath "/" ++ "/" ++
                    generateFileName senv.now inst.config.generatorpattern
                      inst.config.pfx inst.config.sfx (inst.config.counter + 1)) with
                | some e => (-1, some e)
                | none =>
                  match senv.writeRes (addLineEndings msg inst.config.linebreak) with
                  | .error e => (-1, some e)
                  | .ok n => ((n : Int), none))) = ((n : Int), none) := by
      intro rest1 rest2
      rcases hs0 with hk | ⟨hb, hp⟩
      · rw [if_neg (by simp [hk]), if_neg (by simp [hk]), hs1, hs2, hs3, hs4]
      · rw [if_neg (by simp [hb]), if_neg (by simp [hp]), hs1, hs2, hs3, hs4]
    exact hkey _ _

/-- C10 witness: concrete environments where `Stor` succeeds and the SFTP
write reports 5 bytes. -/
theorem send_return_values_witness :
    ftpSend wFSendEnv wInst [[1]] = (-1, none) ∧
    sftpSend wSSendEnv wInst [[1]] = ((5 : Int), none) :=
  ⟨(send_return_values wFSendEnv wSSendEnv wInst [[1]] 5 rfl rfl rfl
      (fun _ _ => rfl) (Or.inl rfl) rfl rfl (fun _ => rfl) (fun _ => rfl)).2.1,
   (send_return_values wFSendEnv wSSendEnv wInst [[1]] 5 rfl rfl rfl
      (fun _ _ => rfl) (Or.inl rfl) rfl rfl (fun _ => rfl) (fun _ => rfl)).2.2⟩

end BloodlabNet
